import Mathlib

/- Shallow embedding of `src/terraform/cloudfront-keygen.py`: an AWS Lambda
custom-resource lifecycle handler that provisions a 2048-bit RSA key pair
for CloudFront and stores the key material in SSM.  External effects
(the two openssl subprocesses, the SSM put/get calls and the HTTP callback
transport) are modelled by an `Oracle` describing their outcomes; the
handler records store writes, store reads, key-generation calls and
callback sends in an explicit result record `HRes`.  Python exceptions are
modelled by `Except Exc`; the `result` field of `HRes` records whether the
invocation returned normally or let an exception escape to the caller. -/

set_option autoImplicit false

namespace CloudfrontKeygen

/-- One character of the standard base64 alphabet. -/
def b64Char (n : Nat) : Char :=
  "ABCDEFGHIJKLMNOPQRSTUVWXYZabcdefghijklmnopqrstuvwxyz0123456789+/".toList.getD n 'A'

/-- Standard base64 (RFC 4648) of a byte list, as `base64.b64encode` produces. -/
def b64EncodeList : List Nat → List Char
  | [] => []
  | [a] => [b64Char (a / 4), b64Char (a % 4 * 16), '=', '=']
  | [a, b] => [b64Char (a / 4), b64Char (a % 4 * 16 + b / 16), b64Char (b % 16 * 4), '=']
  | a :: b :: c :: rest =>
    b64Char (a / 4) :: b64Char (a % 4 * 16 + b / 16) :: b64Char (b % 16 * 4 + c / 64) ::
      b64Char (c % 64) :: b64EncodeList rest

/-- Model of the base64.b64encode call on the UTF-8 bytes of a string, as the
handler applies it to the private-key PEM (line 69). -/
def b64encode (s : String) : String :=
  String.mk (b64EncodeList (s.toUTF8.toList.map (fun b => b.toNat)))

/-- The `ResourceProperties` mapping of the event (fields optional: a missing
key raises `KeyError` in Python). -/
structure ResourceProps where
  environment : Option String
  service : Option String
deriving Repr, DecidableEq

/-- The CloudFormation lifecycle event consumed by `handler`.  Every field the
code accesses by key is optional; `none` models a missing key. -/
structure Event where
  requestType : Option String
  resourceProperties : Option ResourceProps
  stackId : Option String
  requestId : Option String
  logicalResourceId : Option String
  responseURL : Option String
  physicalResourceId : Option String
deriving Repr, DecidableEq

/-- The Lambda context object; the handler only reads `log_stream_name`. -/
structure Context where
  logStreamName : String
deriving Repr, DecidableEq

/-- An SSM parameter as stored by `put_parameter`. -/
structure Param where
  value : String
  typ : String
  description : String
deriving Repr, DecidableEq

/-- The SSM parameter store, as an association list from names to parameters. -/
abbrev Store := List (String × Param)

/-- `get_parameter`: the stored parameter at `name`, if present. -/
def Store.get : Store → String → Option Param
  | [], _ => none
  | (n, p) :: rest, name => if n = name then some p else Store.get rest name

/-- `put_parameter` with `Overwrite=True`: replace or insert at `name`. -/
def Store.put : Store → String → Param → Store
  | [], name, p => [(name, p)]
  | (n, q) :: rest, name, p =>
    if n = name then (n, p) :: rest else (n, q) :: Store.put rest name p

/-- One `put_parameter` call as issued by the handler. -/
structure Write where
  name : String
  value : String
  typ : String
  description : String
  overwrite : Bool
deriving Repr, DecidableEq

/-- The `Data` mapping of a callback payload: the Create/Update success shape
(lines 89-93 and 104-108), the Delete shape (line 121), and the failure shape
(line 127). -/
inductive RData where
  | keys (publicKey : String) (publicKeySSMPath : String) (privateKeySSMPath : String)
  | message (msg : String)
  | error (msg : String)
deriving Repr, DecidableEq

/-- The callback response body built by `send_response` (lines 14-22). -/
structure Payload where
  status : String
  reason : String
  physicalResourceId : String
  stackId : String
  requestId : String
  logicalResourceId : String
  data : RData
deriving Repr, DecidableEq

/-- Python exceptions the embedded code can raise.  `keyError k` is a missing
dict key; `calledProcessError` is a failing openssl subprocess
(`check=True`); `clientError` is a botocore store error with its error code
and operation name; `parameterNotFound` is `ssm.exceptions.ParameterNotFound`;
`recursionError` models exhaustion of the interpreter recursion limit. -/
inductive Exc where
  | keyError (k : String)
  | calledProcessError (cmd : String) (returncode : Nat)
  | clientError (code : String) (op : String)
  | parameterNotFound
  | recursionError
deriving Repr, DecidableEq

/-- The ASCII single-quote character (code 39) used by CPython exception
renderings. -/
def pyQuote : String := String.mk [Char.ofNat 39]

/-- Model of str(e) for each modelled exception, following CPython / botocore
renderings (the temp-dir path inside subprocess commands is elided). -/
def errMsg : Exc → String
  | Exc.keyError k => pyQuote ++ k ++ pyQuote
  | Exc.calledProcessError cmd rc =>
    "Command " ++ pyQuote ++ cmd ++ pyQuote ++ " returned non-zero exit status " ++
      toString rc ++ "."
  | Exc.clientError code op =>
    "An error occurred (" ++ code ++ ") when calling the " ++ op ++ " operation"
  | Exc.parameterNotFound =>
    "An error occurred (ParameterNotFound) when calling the GetParameter operation"
  | Exc.recursionError => "maximum recursion depth exceeded"

/-- Outcomes of the external capabilities during one top-level invocation
(each is exercised at most once per top-level invocation):
`genrsa`/`pubout` are the two openssl subprocesses (error = exit status),
`putPriv`/`putPub`/`getPub` are the SSM calls (`some code` = botocore
`ClientError` with that error code), and `http b` is the callback transport
(an entry `true` makes the next delivery attempt raise, which `send_response`
catches; an exhausted list means delivery succeeds). -/
structure Oracle where
  genrsa : Except Nat String
  pubout : Except Nat String
  putPriv : Option String
  putPub : Option String
  getPub : Option String
  http : List Bool
deriving Repr

/-- Observable outcome of one handler invocation: final store, the
`put_parameter` calls in execution order, the `get_parameter` calls, the
key-generation calls (requested modulus bits), the callback sends with their
delivery flag, the unconsumed transport oracle, and normal return vs an
exception escaping the handler. -/
structure HRes where
  store : Store
  writes : List Write
  reads : List String
  keygenCalls : List Nat
  sends : List (Payload × Bool)
  httpRest : List Bool
  result : Except Exc Unit
deriving Repr

/-- The SSM private-key path (line 41). -/
def privateKeyPathOf (env svc : String) : String :=
  "/" ++ env ++ "/" ++ svc ++ "/cloudfront/private-key"

/-- The SSM public-key path (line 42). -/
def publicKeyPathOf (env svc : String) : String :=
  "/" ++ env ++ "/" ++ svc ++ "/cloudfront/public-key"

/-- The physical resource id computed on the Create path (line 95) and used
as the Delete-path fallback (line 122). -/
def assignedId (env svc : String) : String :=
  "cf-keys-" ++ env ++ "-" ++ svc

/-- `send_response` (lines 12-30).  Builds the response body — raising
`KeyError` if `StackId`, `RequestId` or `LogicalResourceId` is missing from
the event — then attempts the HTTP PUT inside a try/except that also covers
the access to the ResponseURL key, so a missing URL or a transport failure is
swallowed (the payload is then recorded as undelivered).  Returns the
constructed payload with its delivery flag, plus the unconsumed transport
oracle. -/
def send_response (ev : Event) (ctx : Context) (status : String) (rdata : RData)
    (prid : String) (http : List Bool) : (Except Exc (Payload × Bool)) × List Bool :=
  match ev.stackId with
  | none => (Except.error (Exc.keyError "StackId"), http)
  | some sid =>
    match ev.requestId with
    | none => (Except.error (Exc.keyError "RequestId"), http)
    | some rid =>
      match ev.logicalResourceId with
      | none => (Except.error (Exc.keyError "LogicalResourceId"), http)
      | some lid =>
        let p : Payload :=
          { status := status
            reason := "See CloudWatch Log Stream: " ++ ctx.logStreamName
            physicalResourceId := prid
            stackId := sid
            requestId := rid
            logicalResourceId := lid
            data := rdata }
        match ev.responseURL with
        | none => (Except.ok (p, false), http)
        | some _ =>
          match http with
          | [] => (Except.ok (p, true), [])
          | b :: rest => (Except.ok (p, !b), rest)

/-- The in-place mutation of the RequestType key to Create (line 114). -/
def setCreate (ev : Event) : Event :=
  { ev with requestType := some "Create" }

/-- An invocation outcome with no store/keygen/send activity. -/
def noEffect (st : Store) (o : Oracle) (r : Except Exc Unit) : HRes :=
  { store := st, writes := [], reads := [], keygenCalls := [], sends := [],
    httpRest := o.http, result := r }

/-- The Create branch of the handler (lines 45-96): run the two openssl
subprocesses, store the base64-encoded private key as a `SecureString`, store
the public key as a plain `String`, then send the SUCCESS callback with the
computed physical resource id. -/
def createPath (ev : Event) (ctx : Context) (st : Store) (o : Oracle)
    (env svc privateKeyPath publicKeyPath : String) : HRes :=
  match o.genrsa with
  | Except.error rc =>
    { store := st, writes := [], reads := [], keygenCalls := [2048], sends := [],
      httpRest := o.http,
      result := Except.error (Exc.calledProcessError "openssl genrsa" rc) }
  | Except.ok privPem =>
    match o.pubout with
    | Except.error rc =>
      { store := st, writes := [], reads := [], keygenCalls := [2048], sends := [],
        httpRest := o.http,
        result := Except.error (Exc.calledProcessError "openssl rsa -pubout" rc) }
    | Except.ok pubPem =>
      let privB64 := b64encode privPem
      match o.putPriv with
      | some code =>
        { store := st, writes := [], reads := [], keygenCalls := [2048], sends := [],
          httpRest := o.http,
          result := Except.error (Exc.clientError code "PutParameter") }
      | none =>
        let w1 : Write :=
          { name := privateKeyPath, value := privB64, typ := "SecureString",
            description := "CloudFront private key for signing URLs (base64 encoded)",
            overwrite := true }
        let st1 := Store.put st privateKeyPath
          { value := privB64, typ := "SecureString",
            description := "CloudFront private key for signing URLs (base64 encoded)" }
        match o.putPub with
        | some code =>
          { store := st1, writes := [w1], reads := [], keygenCalls := [2048], sends := [],
            httpRest := o.http,
            result := Except.error (Exc.clientError code "PutParameter") }
        | none =>
          let w2 : Write :=
            { name := publicKeyPath, value := pubPem, typ := "String",
              description := "CloudFront public key for signing URLs",
              overwrite := true }
          let st2 := Store.put st1 publicKeyPath
            { value := pubPem, typ := "String",
              description := "CloudFront public key for signing URLs" }
          match send_response ev ctx "SUCCESS"
              (RData.keys pubPem publicKeyPath privateKeyPath)
              (assignedId env svc) o.http with
          | (Except.error e, rest) =>
            { store := st2, writes := [w1, w2], reads := [], keygenCalls := [2048],
              sends := [], httpRest := rest, result := Except.error e }
          | (Except.ok srec, rest) =>
            { store := st2, writes := [w1, w2], reads := [], keygenCalls := [2048],
              sends := [srec], httpRest := rest, result := Except.ok () }

/-- The Delete branch of the handler (lines 117-123): keys are retained; send
SUCCESS with the supplied physical resource id, falling back to the computed
one. -/
def deletePath (ev : Event) (ctx : Context) (st : Store) (o : Oracle)
    (env svc : String) : HRes :=
  let prid := ev.physicalResourceId.getD (assignedId env svc)
  match send_response ev ctx "SUCCESS" (RData.message "Keys retained in SSM")
      prid o.http with
  | (Except.error e, rest) =>
    { store := st, writes := [], reads := [], keygenCalls := [], sends := [],
      httpRest := rest, result := Except.error e }
  | (Except.ok srec, rest) =>
    { store := st, writes := [], reads := [], keygenCalls := [], sends := [srec],
      httpRest := rest, result := Except.ok () }

/-- The top-level `except Exception` clause (lines 125-128): on a normal
attempt it is the identity; on an exception it sends a FAILED callback with
`Data.Error = str(e)` and the supplied physical resource id, falling back to
the sentinel `"failed-resource"`.  If that `send_response` itself raises
(during body construction), the new exception escapes the handler. -/
def exceptBlock (ev : Event) (ctx : Context) (attempt : HRes) : HRes :=
  match attempt.result with
  | Except.ok _ => attempt
  | Except.error e =>
    match send_response ev ctx "FAILED" (RData.error (errMsg e))
        (ev.physicalResourceId.getD "failed-resource") attempt.httpRest with
    | (Except.ok srec, rest) =>
      { attempt with
        sends := attempt.sends ++ [srec], httpRest := rest,
        result := Except.ok () }
    | (Except.error e2, rest) =>
      { attempt with
        httpRest := rest, result := Except.error e2 }

/-- One unfolding of `handler` (lines 32-128); `recur` stands for the
recursive call `return handler(event, context)` at line 115.  Field
extraction (lines 36-38) happens before the try block, so a missing
`RequestType`, `ResourceProperties`, `Environment` or `Service` key raises
out of the handler without any callback.  The except clause does not read
`RequestType`, so applying it with the pre-mutation event is equivalent to
the source, which reuses the in-place-mutated event object. -/
def handlerStep (recur : Event → Context → Store → Oracle → HRes)
    (ev : Event) (ctx : Context) (st : Store) (o : Oracle) : HRes :=
  match ev.requestType with
  | none => noEffect st o (Except.error (Exc.keyError "RequestType"))
  | some rt =>
    match ev.resourceProperties with
    | none => noEffect st o (Except.error (Exc.keyError "ResourceProperties"))
    | some rp =>
      match rp.environment with
      | none => noEffect st o (Except.error (Exc.keyError "Environment"))
      | some env =>
        match rp.service with
        | none => noEffect st o (Except.error (Exc.keyError "Service"))
        | some svc =>
          let privateKeyPath := privateKeyPathOf env svc
          let publicKeyPath := publicKeyPathOf env svc
          let attempt : HRes :=
            if rt = "Create" then
              createPath ev ctx st o env svc privateKeyPath publicKeyPath
            else if rt = "Update" then
              match o.getPub with
              | some code =>
                { store := st, writes := [], reads := [publicKeyPath],
                  keygenCalls := [], sends := [], httpRest := o.http,
                  result := Except.error (Exc.clientError code "GetParameter") }
              | none =>
                match Store.get st publicKeyPath with
                | some pm =>
                  match ev.physicalResourceId with
                  | none =>
                    { store := st, writes := [], reads := [publicKeyPath],
                      keygenCalls := [], sends := [], httpRest := o.http,
                      result := Except.error (Exc.keyError "PhysicalResourceId") }
                  | some prid =>
                    match send_response ev ctx "SUCCESS"
                        (RData.keys pm.value publicKeyPath privateKeyPath)
                        prid o.http with
                    | (Except.error e, rest) =>
                      { store := st, writes := [], reads := [publicKeyPath],
                        keygenCalls := [], sends := [], httpRest := rest,
                        result := Except.error e }
                    | (Except.ok srec, rest) =>
                      { store := st, writes := [], reads := [publicKeyPath],
                        keygenCalls := [], sends := [srec], httpRest := rest,
                        result := Except.ok () }
                | none =>
                  let inner := recur (setCreate ev) ctx st o
                  { inner with reads := publicKeyPath :: inner.reads }
            else if rt = "Delete" then
              deletePath ev ctx st o env svc
            else
              noEffect st o (Except.ok ())
          exceptBlock ev ctx attempt

/-- The handler with an explicit recursion budget; exhausting it models the
interpreter recursion limit. -/
def handlerFuel : Nat → Event → Context → Store → Oracle → HRes
  | 0, _, _, st, o => noEffect st o (Except.error Exc.recursionError)
  | n + 1, ev, ctx, st, o => handlerStep (handlerFuel n) ev ctx st o

/-- `handler` (lines 32-128), at the CPython default recursion limit. -/
def handler : Event → Context → Store → Oracle → HRes :=
  handlerFuel 1000

/-- Whether an invocation on this event reaches the Update-branch fallback
(lines 111-115): the Update branch is entered, the get succeeds in reaching
the store, and the public key is absent. -/
def fallbackOccurs (ev : Event) (st : Store) (o : Oracle) : Bool :=
  match ev.requestType, ev.resourceProperties with
  | some rt, some rp =>
    match rp.environment, rp.service with
    | some env, some svc =>
      rt == "Update" && o.getPub.isNone &&
        (Store.get st (publicKeyPathOf env svc)).isNone
    | _, _ => false
  | _, _ => false

/-- The transport-independent part of an invocation outcome: everything but
the delivery flags and the unconsumed transport oracle. -/
def HRes.core (r : HRes) :
    Store × List Write × List String × List Nat × List Payload × Except Exc Unit :=
  (r.store, r.writes, r.reads, r.keygenCalls, r.sends.map Prod.fst, r.result)

/-- A lifecycle event with the required fields (RequestType, Environment,
Service) and the callback fields (StackId, RequestId, LogicalResourceId)
all present. -/
def wfEvent (rt env svc sid rid lid : String) (rurl prid0 : Option String) : Event :=
  ⟨some rt, some ⟨some env, some svc⟩, some sid, some rid, some lid, rurl, prid0⟩

/-- Characterization of any single callback payload the handler can send for
a well-formed event: it echoes the callback fields; it is either a SUCCESS or
a FAILED payload; a FAILED payload carries a non-empty error message and the
supplied physical resource id (sentinel when absent); a SUCCESS payload
carries the computed id, the supplied-or-computed id, or the supplied id. -/
def goodPayload (env svc sid rid lid : String) (prid0 : Option String) (p : Payload) : Prop :=
  p.stackId = sid ∧ p.requestId = rid ∧ p.logicalResourceId = lid ∧
  (p.status = "SUCCESS" ∨
    (p.status = "FAILED" ∧ (∃ m, p.data = RData.error m ∧ m ≠ "") ∧
      p.physicalResourceId = prid0.getD "failed-resource")) ∧
  (p.status = "SUCCESS" →
    p.physicalResourceId = assignedId env svc ∨
    p.physicalResourceId = prid0.getD (assignedId env svc) ∨
    prid0 = some p.physicalResourceId)

/-- At most one callback is sent per invocation, and every sent payload
satisfies `goodPayload`. -/
def goodSends (env svc sid rid lid : String) (prid0 : Option String) (r : HRes) : Prop :=
  r.sends.length ≤ 1 ∧ ∀ pb ∈ r.sends, goodPayload env svc sid rid lid prid0 pb.1

/-- The Create path encounters a failure: key generation (either openssl
subprocess) or one of the two store writes raises (lines 53-86). -/
def createFails (o : Oracle) : Prop :=
  o.genrsa.isOk = false ∨ o.pubout.isOk = false ∨ o.putPriv ≠ none ∨ o.putPub ≠ none

/-- A failure arises while handling a well-formed event: on Create, a
Create-path failure; on Update, a store-read failure other than NotFound, or
a missing PhysicalResourceId when the public key is found, or a Create-path
failure after the NotFound fallback.  The Delete branch touches neither the
key generator nor the store, so no domain failure can arise there. -/
def domainFailure (rt env svc : String) (prid0 : Option String) (st : Store) (o : Oracle) :
    Prop :=
  (rt = "Create" ∧ createFails o) ∨
  (rt = "Update" ∧ o.getPub ≠ none) ∨
  (rt = "Update" ∧ o.getPub = none ∧
    (Store.get st (publicKeyPathOf env svc)).isSome = true ∧ prid0 = none) ∨
  (rt = "Update" ∧ o.getPub = none ∧ Store.get st (publicKeyPathOf env svc) = none ∧
    createFails o)


/-- Unfolding `handler` one step at the top-level fuel. -/
theorem handler_unfold (ev : Event) (ctx : Context) (st : Store) (o : Oracle) :
    handler ev ctx st o = handlerStep (handlerFuel 999) ev ctx st o := rfl

/-- Unfolding `handlerFuel` at a successor fuel. -/
theorem handlerFuel_succ (n : Nat) (ev : Event) (ctx : Context) (st : Store) (o : Oracle) :
    handlerFuel (n + 1) ev ctx st o = handlerStep (handlerFuel n) ev ctx st o := rfl

/-- Unfolding `handlerFuel` at fuel at least two. -/
theorem handlerFuel_unfold2 (n : Nat) (ev : Event) (ctx : Context) (st : Store) (o : Oracle) :
    handlerFuel (n + 2) ev ctx st o = handlerStep (handlerFuel (n + 1)) ev ctx st o := rfl

/-- Every modelled str(e) rendering is non-empty. -/
theorem errMsg_ne_empty (e : Exc) : errMsg e ≠ "" := by
  cases e <;> intro h <;> apply_fun String.length at h <;>
    simp +decide [errMsg, pyQuote, String.length_append] at h

/-- On a well-formed event, `send_response` never raises: it returns the
constructed payload (with some delivery flag and oracle remainder). -/
theorem send_response_wf (rt env svc sid rid lid : String) (rurl prid0 : Option String)
    (ctx : Context) (s : String) (dat : RData) (p : String) (http : List Bool) :
    ∃ d rest2,
      send_response (wfEvent rt env svc sid rid lid rurl prid0) ctx s dat p http =
        (Except.ok ({ status := s,
                      reason := "See CloudWatch Log Stream: " ++ ctx.logStreamName,
                      physicalResourceId := p, stackId := sid, requestId := rid,
                      logicalResourceId := lid, data := dat }, d), rest2) := by
  cases rurl <;> cases http <;> exact ⟨_, _, rfl⟩

/-- A SUCCESS payload with the computed physical resource id is good. -/
theorem goodPayload_success_assigned (env svc sid rid lid : String) (prid0 : Option String)
    (rs : String) (dat : RData) :
    goodPayload env svc sid rid lid prid0
      ⟨"SUCCESS", rs, assignedId env svc, sid, rid, lid, dat⟩ := by
  refine ⟨rfl, rfl, rfl, Or.inl rfl, fun _ => Or.inl rfl⟩

/-- A SUCCESS payload echoing a supplied physical resource id is good. -/
theorem goodPayload_success_supplied (env svc sid rid lid : String) (prid : String)
    (rs : String) (dat : RData) :
    goodPayload env svc sid rid lid (some prid)
      ⟨"SUCCESS", rs, prid, sid, rid, lid, dat⟩ := by
  refine ⟨rfl, rfl, rfl, Or.inl rfl, fun _ => Or.inr (Or.inr rfl)⟩

/-- A SUCCESS payload with the supplied-or-computed physical resource id is
good. -/
theorem goodPayload_success_getD (env svc sid rid lid : String) (prid0 : Option String)
    (rs : String) (dat : RData) :
    goodPayload env svc sid rid lid prid0
      ⟨"SUCCESS", rs, prid0.getD (assignedId env svc), sid, rid, lid, dat⟩ := by
  refine ⟨rfl, rfl, rfl, Or.inl rfl, fun _ => Or.inr (Or.inl rfl)⟩

/-- A FAILED payload rendering a modelled exception is good. -/
theorem goodPayload_failed (env svc sid rid lid : String) (prid0 : Option String)
    (rs : String) (e : Exc) :
    goodPayload env svc sid rid lid prid0
      ⟨"FAILED", rs, prid0.getD "failed-resource", sid, rid, lid, RData.error (errMsg e)⟩ := by
  refine ⟨rfl, rfl, rfl,
    Or.inr ⟨rfl, ⟨errMsg e, rfl, errMsg_ne_empty e⟩, rfl⟩,
    fun h => by simp at h⟩

/-- The step functional does not consult its recursion argument unless the
event has RequestType Update. -/
theorem step_recur_irrel (f g : Event → Context → Store → Oracle → HRes)
    (ev : Event) (ctx : Context) (st : Store) (o : Oracle)
    (hne : ev.requestType ≠ some "Update") :
    handlerStep f ev ctx st o = handlerStep g ev ctx st o := by
  rcases ev with ⟨rt, rp, sid, rid, lid, rurl, prid0⟩
  cases rt with
  | none => rfl
  | some rt =>
    have hne2 : rt ≠ "Update" := by
      intro h
      exact hne (by simp [h])
    rcases rp with _ | ⟨env, svc⟩
    · rfl
    rcases env with _ | env
    · rfl
    rcases svc with _ | svc
    · rfl
    simp [handlerStep, hne2]

/-- Any recursion budget of at least two produces the same outcome: the
mutated re-invocation has RequestType Create, so at most one recursion step
is ever taken. -/
theorem handlerFuel_stable (n m : Nat) (ev : Event) (ctx : Context) (st : Store) (o : Oracle) :
    handlerFuel (n + 2) ev ctx st o = handlerFuel (m + 2) ev ctx st o := by
  have hs : ∀ (k l : Nat) (e2 : Event), e2.requestType ≠ some "Update" →
      handlerFuel (k + 1) e2 ctx st o = handlerFuel (l + 1) e2 ctx st o := by
    intro k l e2 hne
    rw [handlerFuel_succ, handlerFuel_succ]
    exact step_recur_irrel _ _ e2 ctx st o hne
  by_cases hrt : ev.requestType = some "Update"
  · rw [handlerFuel_unfold2, handlerFuel_unfold2]
    rcases ev with ⟨rt, rp, sid, rid, lid, rurl, prid0⟩
    simp only [Event.requestType] at hrt
    subst hrt
    rcases rp with _ | ⟨env, svc⟩
    · rfl
    rcases env with _ | env
    · rfl
    rcases svc with _ | svc
    · rfl
    simp only [handlerStep]
    cases o.getPub with
    | some code => rfl
    | none =>
      cases Store.get st (publicKeyPathOf env svc) with
      | some pm => rfl
      | none =>
        have := hs n m
          ⟨some "Create", some ⟨some env, some svc⟩, sid, rid, lid, rurl, prid0⟩
          (by simp)
        simp [setCreate, this]
  · exact hs (n + 1) (m + 1) ev hrt

/-- One step of the handler on a well-formed event returns normally and sends
only good payloads, provided the recursion argument does so on the mutated
Create event (or is the exhausted-budget outcome). -/
theorem step_wf (recur : Event → Context → Store → Oracle → HRes)
    (rt env svc sid rid lid : String) (rurl prid0 : Option String)
    (ctx : Context) (st : Store) (o : Oracle)
    (hrec :
      ((recur (wfEvent "Create" env svc sid rid lid rurl prid0) ctx st o).result = Except.ok () ∧
        goodSends env svc sid rid lid prid0
          (recur (wfEvent "Create" env svc sid rid lid rurl prid0) ctx st o)) ∨
      recur (wfEvent "Create" env svc sid rid lid rurl prid0) ctx st o =
        noEffect st o (Except.error Exc.recursionError)) :
    (handlerStep recur (wfEvent rt env svc sid rid lid rurl prid0) ctx st o).result =
      Except.ok () ∧
    goodSends env svc sid rid lid prid0
      (handlerStep recur (wfEvent rt env svc sid rid lid rurl prid0) ctx st o) := by
  simp only [wfEvent] at hrec ⊢
  by_cases hc : rt = "Create"
  · subst hc
    cases hg : o.genrsa with
    | error rc =>
      obtain ⟨d, rest2, hsend⟩ := send_response_wf "Create" env svc sid rid lid rurl prid0
        ctx "FAILED" (RData.error (errMsg (Exc.calledProcessError "openssl genrsa" rc)))
        (prid0.getD "failed-resource") o.http
      simp only [wfEvent] at hsend
      simp [handlerStep, createPath, exceptBlock, hg, hsend, goodSends]
      exact goodPayload_failed env svc sid rid lid prid0 _ _
    | ok priv =>
      cases hp : o.pubout with
      | error rc =>
        obtain ⟨d, rest2, hsend⟩ := send_response_wf "Create" env svc sid rid lid rurl prid0
          ctx "FAILED" (RData.error (errMsg (Exc.calledProcessError "openssl rsa -pubout" rc)))
          (prid0.getD "failed-resource") o.http
        simp only [wfEvent] at hsend
        simp [handlerStep, createPath, exceptBlock, hg, hp, hsend, goodSends]
        exact goodPayload_failed env svc sid rid lid prid0 _ _
      | ok pub =>
        cases h1 : o.putPriv with
        | some code =>
          obtain ⟨d, rest2, hsend⟩ := send_response_wf "Create" env svc sid rid lid rurl prid0
            ctx "FAILED" (RData.error (errMsg (Exc.clientError code "PutParameter")))
            (prid0.getD "failed-resource") o.http
          simp only [wfEvent] at hsend
          simp [handlerStep, createPath, exceptBlock, hg, hp, h1, hsend, goodSends]
          exact goodPayload_failed env svc sid rid lid prid0 _ _
        | none =>
          cases h2 : o.putPub with
          | some code =>
            obtain ⟨d, rest2, hsend⟩ := send_response_wf "Create" env svc sid rid lid rurl prid0
              ctx "FAILED" (RData.error (errMsg (Exc.clientError code "PutParameter")))
              (prid0.getD "failed-resource") o.http
            simp only [wfEvent] at hsend
            simp [handlerStep, createPath, exceptBlock, hg, hp, h1, h2, hsend, goodSends]
            exact goodPayload_failed env svc sid rid lid prid0 _ _
          | none =>
            obtain ⟨d, rest2, hsend⟩ := send_response_wf "Create" env svc sid rid lid rurl prid0
              ctx "SUCCESS"
              (RData.keys pub (publicKeyPathOf env svc) (privateKeyPathOf env svc))
              (assignedId env svc) o.http
            simp only [wfEvent] at hsend
            simp [handlerStep, createPath, exceptBlock, hg, hp, h1, h2, hsend, goodSends]
            exact goodPayload_success_assigned env svc sid rid lid prid0 _ _
  · by_cases hu : rt = "Update"
    · subst hu
      cases hgp : o.getPub with
      | some code =>
        obtain ⟨d, rest2, hsend⟩ := send_response_wf "Update" env svc sid rid lid rurl prid0
          ctx "FAILED" (RData.error (errMsg (Exc.clientError code "GetParameter")))
          (prid0.getD "failed-resource") o.http
        simp only [wfEvent] at hsend
        simp [handlerStep, exceptBlock, hgp, hsend, goodSends]
        exact goodPayload_failed env svc sid rid lid prid0 _ _
      | none =>
        cases hlook : Store.get st (publicKeyPathOf env svc) with
        | some pm =>
          cases prid0 with
          | none =>
            obtain ⟨d, rest2, hsend⟩ := send_response_wf "Update" env svc sid rid lid rurl none
              ctx "FAILED" (RData.error (errMsg (Exc.keyError "PhysicalResourceId")))
              "failed-resource" o.http
            simp only [wfEvent] at hsend
            simp [handlerStep, exceptBlock, hgp, hlook, hsend, goodSends]
            exact goodPayload_failed env svc sid rid lid none _ _
          | some prid =>
            obtain ⟨d, rest2, hsend⟩ := send_response_wf "Update" env svc sid rid lid rurl
              (some prid) ctx "SUCCESS"
              (RData.keys pm.value (publicKeyPathOf env svc) (privateKeyPathOf env svc))
              prid o.http
            simp only [wfEvent] at hsend
            simp [handlerStep, exceptBlock, hgp, hlook, hsend, goodSends]
            exact goodPayload_success_supplied env svc sid rid lid prid _ _
        | none =>
          rcases hrec with ⟨hok, hsends⟩ | heq
          · simp [handlerStep, exceptBlock, setCreate, hgp, hlook, hok, goodSends]
            simp [goodSends] at hsends
            exact hsends
          · obtain ⟨d, rest2, hsend⟩ := send_response_wf "Update" env svc sid rid lid rurl prid0
              ctx "FAILED" (RData.error (errMsg Exc.recursionError))
              (prid0.getD "failed-resource") o.http
            simp only [wfEvent] at hsend
            simp [handlerStep, exceptBlock, setCreate, hgp, hlook, heq, noEffect, hsend, goodSends]
            exact goodPayload_failed env svc sid rid lid prid0 _ _
    · by_cases hd : rt = "Delete"
      · subst hd
        obtain ⟨d, rest2, hsend⟩ := send_response_wf "Delete" env svc sid rid lid rurl prid0
          ctx "SUCCESS" (RData.message "Keys retained in SSM")
          (prid0.getD (assignedId env svc)) o.http
        simp only [wfEvent] at hsend
        simp [handlerStep, deletePath, exceptBlock, hsend, goodSends]
        exact goodPayload_success_getD env svc sid rid lid prid0 _ _
      · simp [handlerStep, exceptBlock, noEffect, hc, hu, hd, goodSends]

/-- At every positive recursion budget, the handler on a well-formed event
returns normally and sends only good payloads. -/
theorem handlerFuel_wf (k : Nat) (rt env svc sid rid lid : String) (rurl prid0 : Option String)
    (ctx : Context) (st : Store) (o : Oracle) :
    (handlerFuel (k + 1) (wfEvent rt env svc sid rid lid rurl prid0) ctx st o).result =
      Except.ok () ∧
    goodSends env svc sid rid lid prid0
      (handlerFuel (k + 1) (wfEvent rt env svc sid rid lid rurl prid0) ctx st o) := by
  induction k generalizing rt with
  | zero =>
    rw [handlerFuel_succ]
    exact step_wf (handlerFuel 0) rt env svc sid rid lid rurl prid0 ctx st o (Or.inr rfl)
  | succ k ih =>
    rw [handlerFuel_succ]
    exact step_wf (handlerFuel (k + 1)) rt env svc sid rid lid rurl prid0 ctx st o
      (Or.inl (ih "Create"))

/-- The handler on a well-formed event returns normally and sends only good
payloads. -/
theorem handler_wf (rt env svc sid rid lid : String) (rurl prid0 : Option String)
    (ctx : Context) (st : Store) (o : Oracle) :
    (handler (wfEvent rt env svc sid rid lid rurl prid0) ctx st o).result = Except.ok () ∧
    goodSends env svc sid rid lid prid0
      (handler (wfEvent rt env svc sid rid lid rurl prid0) ctx st o) :=
  handlerFuel_wf 999 rt env svc sid rid lid rurl prid0 ctx st o

/-- At every positive recursion budget, a Create event whose oracle fails
(key generation or either store write) produces a normal return and exactly
one FAILED callback with a non-empty error message and the
supplied-or-sentinel physical resource id. -/
theorem createFail_sends (k : Nat) (env svc sid rid lid : String) (rurl prid0 : Option String)
    (ctx : Context) (st : Store) (o : Oracle) (hfail : createFails o) :
    (handlerFuel (k + 1) (wfEvent "Create" env svc sid rid lid rurl prid0) ctx st o).result =
      Except.ok () ∧
    ∃ m, m ≠ "" ∧
      (handlerFuel (k + 1) (wfEvent "Create" env svc sid rid lid rurl prid0)
          ctx st o).sends.map Prod.fst =
        [⟨"FAILED", "See CloudWatch Log Stream: " ++ ctx.logStreamName,
          prid0.getD "failed-resource", sid, rid, lid, RData.error m⟩] := by
  simp only [createFails] at hfail
  rw [handlerFuel_succ]
  cases hg : o.genrsa with
  | error rc =>
    cases rurl <;> cases hh : o.http <;>
      exact ⟨by simp [wfEvent, handlerStep, createPath, send_response, exceptBlock, hg, hh],
        _, errMsg_ne_empty (Exc.calledProcessError "openssl genrsa" rc),
        by simp [wfEvent, handlerStep, createPath, send_response, exceptBlock, hg, hh]⟩
  | ok priv =>
    cases hp : o.pubout with
    | error rc =>
      cases rurl <;> cases hh : o.http <;>
        exact ⟨by simp [wfEvent, handlerStep, createPath, send_response, exceptBlock,
            hg, hp, hh],
          _, errMsg_ne_empty (Exc.calledProcessError "openssl rsa -pubout" rc),
          by simp [wfEvent, handlerStep, createPath, send_response, exceptBlock, hg, hp, hh]⟩
    | ok pub =>
      cases h1 : o.putPriv with
      | some code =>
        cases rurl <;> cases hh : o.http <;>
          exact ⟨by simp [wfEvent, handlerStep, createPath, send_response, exceptBlock,
              hg, hp, h1, hh],
            _, errMsg_ne_empty (Exc.clientError code "PutParameter"),
            by simp [wfEvent, handlerStep, createPath, send_response, exceptBlock,
              hg, hp, h1, hh]⟩
      | none =>
        cases h2 : o.putPub with
        | some code =>
          cases rurl <;> cases hh : o.http <;>
            exact ⟨by simp [wfEvent, handlerStep, createPath, send_response, exceptBlock,
                hg, hp, h1, h2, hh],
              _, errMsg_ne_empty (Exc.clientError code "PutParameter"),
              by simp [wfEvent, handlerStep, createPath, send_response, exceptBlock,
                hg, hp, h1, h2, hh]⟩
        | none =>
          exfalso
          rcases hfail with h | h | h | h <;>
            simp [hg, hp, h1, h2, Except.isOk, Except.toBool] at h

/-- The payload part of a `send_response` outcome does not depend on the
transport oracle: only the delivery flag and the oracle remainder do. -/
theorem send_response_http (ev : Event) (ctx : Context) (s : String) (dat : RData)
    (p : String) (hA hB : List Bool) :
    ((send_response ev ctx s dat p hA).1).map Prod.fst =
    ((send_response ev ctx s dat p hB).1).map Prod.fst := by
  rcases ev with ⟨rt, rp, sid, rid, lid, rurl, prid0⟩
  cases sid <;> cases rid <;> cases lid <;> cases rurl <;> cases hA <;> cases hB <;> rfl

/-- The except clause preserves equality of transport-independent outcomes. -/
theorem exceptBlock_core (ev : Event) (ctx : Context) (a b : HRes)
    (h : a.core = b.core) :
    (exceptBlock ev ctx a).core = (exceptBlock ev ctx b).core := by
  have h2 := h
  simp only [HRes.core, Prod.mk.injEq] at h2
  obtain ⟨g1, g2, g3, g4, g5, g6⟩ := h2
  unfold exceptBlock
  rw [g6]
  cases hb : b.result with
  | ok u => exact h
  | error e =>
    have hsend := send_response_http ev ctx "FAILED" (RData.error (errMsg e))
      (ev.physicalResourceId.getD "failed-resource") a.httpRest b.httpRest
    cases hA2 : send_response ev ctx "FAILED" (RData.error (errMsg e))
        (ev.physicalResourceId.getD "failed-resource") a.httpRest with
    | mk ra resta =>
      cases hB2 : send_response ev ctx "FAILED" (RData.error (errMsg e))
          (ev.physicalResourceId.getD "failed-resource") b.httpRest with
      | mk rb restb =>
        rw [hA2, hB2] at hsend
        simp only at hsend
        cases ra with
        | ok pa =>
          cases rb with
          | ok pb2 =>
            have hp : pa.1 = pb2.1 := by simpa [Except.map] using hsend
            simp [HRes.core, hA2, hB2, g1, g2, g3, g4, g5, hp]
          | error eb => simp [Except.map] at hsend
        | error ea =>
          cases rb with
          | ok pb2 => simp [Except.map] at hsend
          | error eb =>
            have he : ea = eb := by simpa [Except.map] using hsend
            simp [HRes.core, hA2, hB2, g1, g2, g3, g4, g5, he]

/-- A send-then-build site (the shape shared by the Create, Update-found and
Delete branches) has a transport-independent outcome. -/
theorem sendSite_core (ev : Event) (ctx : Context) (s : String) (dat : RData) (p : String)
    (hA hB : List Bool) (st1 : Store) (w : List Write) (rd : List String) (kg : List Nat) :
    (match send_response ev ctx s dat p hA with
      | (Except.error e, rest) =>
        ({ store := st1, writes := w, reads := rd, keygenCalls := kg, sends := [],
           httpRest := rest, result := Except.error e } : HRes)
      | (Except.ok srec, rest) =>
        { store := st1, writes := w, reads := rd, keygenCalls := kg, sends := [srec],
          httpRest := rest, result := Except.ok () }).core =
    (match send_response ev ctx s dat p hB with
      | (Except.error e, rest) =>
        ({ store := st1, writes := w, reads := rd, keygenCalls := kg, sends := [],
           httpRest := rest, result := Except.error e } : HRes)
      | (Except.ok srec, rest) =>
        { store := st1, writes := w, reads := rd, keygenCalls := kg, sends := [srec],
          httpRest := rest, result := Except.ok () }).core := by
  have hsend := send_response_http ev ctx s dat p hA hB
  cases hA2 : send_response ev ctx s dat p hA with
  | mk ra resta =>
    cases hB2 : send_response ev ctx s dat p hB with
    | mk rb restb =>
      rw [hA2, hB2] at hsend
      simp only at hsend
      cases ra with
      | ok pa =>
        cases rb with
        | ok pb2 =>
          have hp : pa.1 = pb2.1 := by simpa [Except.map] using hsend
          simp [HRes.core, hA2, hB2, hp]
        | error eb => simp [Except.map] at hsend
      | error ea =>
        cases rb with
        | ok pb2 => simp [Except.map] at hsend
        | error eb =>
          have he : ea = eb := by simpa [Except.map] using hsend
          simp [HRes.core, hA2, hB2, he]

/-- The Create branch has a transport-independent outcome for oracles that
agree on everything but the transport. -/
theorem createPath_core (ev : Event) (ctx : Context) (st : Store) (o1 o2 : Oracle)
    (env svc pk pub : String)
    (eg : o1.genrsa = o2.genrsa) (ep : o1.pubout = o2.pubout)
    (e1 : o1.putPriv = o2.putPriv) (e2 : o1.putPub = o2.putPub) :
    (createPath ev ctx st o1 env svc pk pub).core =
    (createPath ev ctx st o2 env svc pk pub).core := by
  cases hg : o1.genrsa with
  | error rc =>
    have hg2 : o2.genrsa = Except.error rc := eg ▸ hg
    simp [createPath, hg, hg2, HRes.core]
  | ok priv =>
    have hg2 : o2.genrsa = Except.ok priv := eg ▸ hg
    cases hp : o1.pubout with
    | error rc =>
      have hp2 : o2.pubout = Except.error rc := ep ▸ hp
      simp [createPath, hg, hg2, hp, hp2, HRes.core]
    | ok pub2 =>
      have hp2 : o2.pubout = Except.ok pub2 := ep ▸ hp
      cases h1 : o1.putPriv with
      | some code =>
        have h12 : o2.putPriv = some code := e1 ▸ h1
        simp [createPath, hg, hg2, hp, hp2, h1, h12, HRes.core]
      | none =>
        have h12 : o2.putPriv = none := e1 ▸ h1
        cases h2 : o1.putPub with
        | some code =>
          have h22 : o2.putPub = some code := e2 ▸ h2
          simp [createPath, hg, hg2, hp, hp2, h1, h12, h2, h22, HRes.core]
        | none =>
          have h22 : o2.putPub = none := e2 ▸ h2
          simp only [createPath, hg, hg2, hp, hp2, h1, h12, h2, h22]
          exact sendSite_core ev ctx "SUCCESS" _ _ o1.http o2.http _ _ _ _

/-- The Delete branch has a transport-independent outcome. -/
theorem deletePath_core (ev : Event) (ctx : Context) (st : Store) (o1 o2 : Oracle)
    (env svc : String) :
    (deletePath ev ctx st o1 env svc).core =
    (deletePath ev ctx st o2 env svc).core := by
  simp only [deletePath]
  exact sendSite_core ev ctx "SUCCESS" _ _ o1.http o2.http _ _ _ _

/-- At any recursion budget, two oracles that agree on everything but the
transport produce the same transport-independent outcome. -/
theorem handlerFuel_core (n : Nat) :
    ∀ (ev : Event) (ctx : Context) (st : Store) (o1 o2 : Oracle),
    o1.genrsa = o2.genrsa → o1.pubout = o2.pubout → o1.putPriv = o2.putPriv →
    o1.putPub = o2.putPub → o1.getPub = o2.getPub →
    (handlerFuel n ev ctx st o1).core = (handlerFuel n ev ctx st o2).core := by
  induction n with
  | zero => intro ev ctx st o1 o2 eg ep e1 e2 egp; rfl
  | succ n ih =>
    intro ev ctx st o1 o2 eg ep e1 e2 egp
    rw [handlerFuel_succ, handlerFuel_succ]
    rcases ev with ⟨rt, rp, sid, rid, lid, rurl, prid0⟩
    cases rt with
    | none => rfl
    | some rt =>
      rcases rp with _ | ⟨env, svc⟩
      · rfl
      rcases env with _ | env
      · rfl
      rcases svc with _ | svc
      · rfl
      simp only [handlerStep]
      apply exceptBlock_core
      by_cases hc : rt = "Create"
      · subst hc
        simp only [reduceIte]
        exact createPath_core _ ctx st o1 o2 env svc _ _ eg ep e1 e2
      · by_cases hu : rt = "Update"
        · subst hu
          simp only [reduceIte]
          cases hgp : o1.getPub with
          | some code =>
            have hgp2 : o2.getPub = some code := egp ▸ hgp
            simp [hgp, hgp2, HRes.core]
          | none =>
            have hgp2 : o2.getPub = none := egp ▸ hgp
            simp only [hgp, hgp2]
            cases Store.get st (publicKeyPathOf env svc) with
            | some pm =>
              cases prid0 with
              | none => rfl
              | some prid =>
                exact sendSite_core _ ctx "SUCCESS" _ _ o1.http o2.http _ _ _ _
            | none =>
              have hin := ih (setCreate
                ⟨some "Update", some ⟨some env, some svc⟩, sid, rid, lid, rurl, prid0⟩)
                ctx st o1 o2 eg ep e1 e2 egp
              simp only [HRes.core, Prod.mk.injEq] at hin
              obtain ⟨g1, g2, g3, g4, g5, g6⟩ := hin
              simp [HRes.core, g1, g2, g3, g4, g5, g6]
        · by_cases hd : rt = "Delete"
          · subst hd
            simp only [reduceIte]
            exact deletePath_core _ ctx st o1 o2 env svc
          · simp only [if_neg hc, if_neg hu, if_neg hd]
            rfl

/-- Claim C1 (confirmed): for every well-formed Create event, when key
generation and both store calls succeed, the handler performs exactly one
2048-bit key generation and exactly two store writes — the private key
base64-encoded at the private-key path as a SecureString with overwrite, then
the public key un-encoded at the public-key path as a String with overwrite —
and sends a single SUCCESS callback whose Data is exactly the public-key PEM
plus both paths and whose PhysicalResourceId is the computed
cf-keys-environment-service id. -/
theorem claim1_create_success (env svc sid rid lid : String) (rurl prid0 : Option String)
    (ctx : Context) (st : Store) (o : Oracle) (priv pub : String)
    (hg : o.genrsa = Except.ok priv) (hp : o.pubout = Except.ok pub)
    (h1 : o.putPriv = none) (h2 : o.putPub = none) :
    let r := handler (wfEvent "Create" env svc sid rid lid rurl prid0) ctx st o
    r.keygenCalls = [2048] ∧
    r.writes =
      [⟨privateKeyPathOf env svc, b64encode priv, "SecureString",
        "CloudFront private key for signing URLs (base64 encoded)", true⟩,
       ⟨publicKeyPathOf env svc, pub, "String",
        "CloudFront public key for signing URLs", true⟩] ∧
    r.sends.map Prod.fst =
      [⟨"SUCCESS", "See CloudWatch Log Stream: " ++ ctx.logStreamName,
        assignedId env svc, sid, rid, lid,
        RData.keys pub (publicKeyPathOf env svc) (privateKeyPathOf env svc)⟩] ∧
    r.result = Except.ok () := by
  rw [handler_unfold]
  cases rurl <;> cases hh : o.http <;>
    simp [wfEvent, handlerStep, createPath, send_response, exceptBlock, hg, hp, h1, h2, hh]

/-- Witness for C1 at a concrete Create event and succeeding oracle. -/
theorem claim1_create_success_witness :
    (handler (wfEvent "Create" "prod" "edge" "S" "R" "L" (some "U") none) ⟨"ls"⟩ []
        ⟨Except.ok "PRIV", Except.ok "PUB", none, none, none, []⟩).keygenCalls = [2048] ∧
    (handler (wfEvent "Create" "prod" "edge" "S" "R" "L" (some "U") none) ⟨"ls"⟩ []
        ⟨Except.ok "PRIV", Except.ok "PUB", none, none, none, []⟩).writes =
      [⟨privateKeyPathOf "prod" "edge", b64encode "PRIV", "SecureString",
        "CloudFront private key for signing URLs (base64 encoded)", true⟩,
       ⟨publicKeyPathOf "prod" "edge", "PUB", "String",
        "CloudFront public key for signing URLs", true⟩] ∧
    (handler (wfEvent "Create" "prod" "edge" "S" "R" "L" (some "U") none) ⟨"ls"⟩ []
        ⟨Except.ok "PRIV", Except.ok "PUB", none, none, none, []⟩).sends.map Prod.fst =
      [⟨"SUCCESS", "See CloudWatch Log Stream: " ++ Context.logStreamName ⟨"ls"⟩,
        assignedId "prod" "edge", "S", "R", "L",
        RData.keys "PUB" (publicKeyPathOf "prod" "edge") (privateKeyPathOf "prod" "edge")⟩] ∧
    (handler (wfEvent "Create" "prod" "edge" "S" "R" "L" (some "U") none) ⟨"ls"⟩ []
        ⟨Except.ok "PRIV", Except.ok "PUB", none, none, none, []⟩).result = Except.ok () :=
  claim1_create_success "prod" "edge" "S" "R" "L" (some "U") none ⟨"ls"⟩ []
    ⟨Except.ok "PRIV", Except.ok "PUB", none, none, none, []⟩ "PRIV" "PUB" rfl rfl rfl rfl

/-- Claim C2 counterexample: an event missing the RequestType key is not
converted into a FAILED callback; the KeyError escapes the handler and no
callback at all is sent, because field extraction happens before the try
block. -/
theorem claim2_uncaught_keyerror :
    (handler ⟨none, some ⟨some "prod", some "edge"⟩, some "S", some "R", some "L",
        some "U", none⟩ ⟨"ls"⟩ []
        ⟨Except.ok "PRIV", Except.ok "PUB", none, none, none, []⟩).result =
      Except.error (Exc.keyError "RequestType") ∧
    (handler ⟨none, some ⟨some "prod", some "edge"⟩, some "S", some "R", some "L",
        some "U", none⟩ ⟨"ls"⟩ []
        ⟨Except.ok "PRIV", Except.ok "PUB", none, none, none, []⟩).sends = [] :=
  ⟨rfl, rfl⟩

/-- Claim C2 (amended): for every event carrying the required fields
(RequestType, Environment, Service) and the callback fields (StackId,
RequestId, LogicalResourceId), and every behaviour of the external
capabilities: no exception escapes the handler, at most one callback is sent,
every sent callback is either SUCCESS or a FAILED callback whose Data holds a
non-empty Error message and whose PhysicalResourceId is the supplied one with
the sentinel failed-resource fallback — and whenever a failure actually
arises during handling (a key-generation or store-write failure on the Create
path, a store-read failure other than NotFound on Update, a missing
PhysicalResourceId on an Update that found the key, or a Create-path failure
after the NotFound fallback), the handler converts it into exactly one such
FAILED callback.  An event missing a required field instead raises out of the
handler (see the counterexample). -/
theorem claim2_caught_failures (rt env svc sid rid lid : String) (rurl prid0 : Option String)
    (ctx : Context) (st : Store) (o : Oracle) :
    (handler (wfEvent rt env svc sid rid lid rurl prid0) ctx st o).result = Except.ok () ∧
    (handler (wfEvent rt env svc sid rid lid rurl prid0) ctx st o).sends.length ≤ 1 ∧
    (∀ pb ∈ (handler (wfEvent rt env svc sid rid lid rurl prid0) ctx st o).sends,
      pb.1.status = "SUCCESS" ∨
        (pb.1.status = "FAILED" ∧
          (∃ m, pb.1.data = RData.error m ∧ m ≠ "") ∧
          pb.1.physicalResourceId = prid0.getD "failed-resource")) ∧
    (domainFailure rt env svc prid0 st o →
      ∃ m, m ≠ "" ∧
        (handler (wfEvent rt env svc sid rid lid rurl prid0) ctx st o).sends.map Prod.fst =
          [⟨"FAILED", "See CloudWatch Log Stream: " ++ ctx.logStreamName,
            prid0.getD "failed-resource", sid, rid, lid, RData.error m⟩]) := by
  obtain ⟨hres, hgood⟩ := handler_wf rt env svc sid rid lid rurl prid0 ctx st o
  simp only [goodSends, goodPayload] at hgood
  refine ⟨hres, hgood.1, fun pb hmem => ?_, fun hdf => ?_⟩
  · obtain ⟨-, -, -, hstat, -⟩ := hgood.2 pb hmem
    exact hstat
  · rcases hdf with ⟨hrt, hcf⟩ | ⟨hrt, hgp⟩ | ⟨hrt, hgp, hfound, hpr⟩ | ⟨hrt, hgp, hnf, hcf⟩
    · subst hrt
      exact (createFail_sends 999 env svc sid rid lid rurl prid0 ctx st o hcf).2
    · subst hrt
      cases hgp2 : o.getPub with
      | none => exact absurd hgp2 hgp
      | some code =>
        obtain ⟨d, rest2, hsend⟩ := send_response_wf "Update" env svc sid rid lid rurl prid0
          ctx "FAILED" (RData.error (errMsg (Exc.clientError code "GetParameter")))
          (prid0.getD "failed-resource") o.http
        simp only [wfEvent] at hsend
        rw [handler_unfold]
        refine ⟨errMsg (Exc.clientError code "GetParameter"),
          errMsg_ne_empty (Exc.clientError code "GetParameter"), ?_⟩
        simp [wfEvent, handlerStep, exceptBlock, hgp2, hsend]
    · subst hrt
      subst hpr
      obtain ⟨pm, hpm⟩ := Option.isSome_iff_exists.mp hfound
      obtain ⟨d, rest2, hsend⟩ := send_response_wf "Update" env svc sid rid lid rurl none
        ctx "FAILED" (RData.error (errMsg (Exc.keyError "PhysicalResourceId")))
        "failed-resource" o.http
      simp only [wfEvent] at hsend
      rw [handler_unfold]
      refine ⟨errMsg (Exc.keyError "PhysicalResourceId"),
        errMsg_ne_empty (Exc.keyError "PhysicalResourceId"), ?_⟩
      simp [wfEvent, handlerStep, exceptBlock, hgp, hpm, hsend]
    · subst hrt
      obtain ⟨hinres, m, hm, hmsends⟩ := createFail_sends 998 env svc sid rid lid rurl prid0
        ctx st o hcf
      simp only [show (998 : Nat) + 1 = 999 from rfl, wfEvent] at hinres hmsends
      rw [handler_unfold]
      refine ⟨m, hm, ?_⟩
      simp [wfEvent, handlerStep, setCreate, exceptBlock, hgp, hnf, hinres, hmsends]

/-- Witness for C2 at a Create event whose key generation fails: the handler
returns normally, the concrete FAILED payload it sends carries a non-empty
Error and the sentinel physical resource id, and the failure is indeed
converted into exactly one FAILED callback. -/
theorem claim2_caught_failures_witness :
    (handler (wfEvent "Create" "prod" "edge" "S" "R" "L" (some "U") none) ⟨"ls"⟩ []
        ⟨Except.error 1, Except.ok "PUB", none, none, none, []⟩).result = Except.ok () ∧
    ((⟨"FAILED", "See CloudWatch Log Stream: ls", "failed-resource", "S", "R", "L",
        RData.error (errMsg (Exc.calledProcessError "openssl genrsa" 1))⟩ : Payload).status =
          "SUCCESS" ∨
      ((⟨"FAILED", "See CloudWatch Log Stream: ls", "failed-resource", "S", "R", "L",
          RData.error (errMsg (Exc.calledProcessError "openssl genrsa" 1))⟩ : Payload).status =
            "FAILED" ∧
        (∃ m, (⟨"FAILED", "See CloudWatch Log Stream: ls", "failed-resource", "S", "R", "L",
            RData.error (errMsg (Exc.calledProcessError "openssl genrsa" 1))⟩ :
              Payload).data = RData.error m ∧ m ≠ "") ∧
        (⟨"FAILED", "See CloudWatch Log Stream: ls", "failed-resource", "S", "R", "L",
            RData.error (errMsg (Exc.calledProcessError "openssl genrsa" 1))⟩ :
              Payload).physicalResourceId = Option.getD none "failed-resource")) ∧
    (∃ m, m ≠ "" ∧
      (handler (wfEvent "Create" "prod" "edge" "S" "R" "L" (some "U") none) ⟨"ls"⟩ []
          ⟨Except.error 1, Except.ok "PUB", none, none, none, []⟩).sends.map Prod.fst =
        [⟨"FAILED", "See CloudWatch Log Stream: " ++ Context.logStreamName ⟨"ls"⟩,
          Option.getD none "failed-resource", "S", "R", "L", RData.error m⟩]) :=
  ⟨(claim2_caught_failures "Create" "prod" "edge" "S" "R" "L" (some "U") none ⟨"ls"⟩ []
      ⟨Except.error 1, Except.ok "PUB", none, none, none, []⟩).1,
    (claim2_caught_failures "Create" "prod" "edge" "S" "R" "L" (some "U") none ⟨"ls"⟩ []
        ⟨Except.error 1, Except.ok "PUB", none, none, none, []⟩).2.2.1
      (⟨"FAILED", "See CloudWatch Log Stream: ls", "failed-resource", "S", "R", "L",
          RData.error (errMsg (Exc.calledProcessError "openssl genrsa" 1))⟩, true)
      (by decide),
    (claim2_caught_failures "Create" "prod" "edge" "S" "R" "L" (some "U") none ⟨"ls"⟩ []
        ⟨Except.error 1, Except.ok "PUB", none, none, none, []⟩).2.2.2
      (Or.inl ⟨rfl, Or.inl rfl⟩)⟩

/-- Claim C3 (confirmed): for every well-formed Update event whose store read
of the public-key path succeeds, the handler performs zero store writes and
no key generation, leaves the store unchanged, and sends a single SUCCESS
callback with the Create-shaped Data (PublicKey equal to the stored value,
plus both paths) and the caller-supplied PhysicalResourceId unchanged. -/
theorem claim3_update_found (env svc sid rid lid prid : String) (rurl : Option String)
    (ctx : Context) (st : Store) (o : Oracle) (pm : Param)
    (hget : o.getPub = none)
    (hlook : Store.get st (publicKeyPathOf env svc) = some pm) :
    let r := handler (wfEvent "Update" env svc sid rid lid rurl (some prid)) ctx st o
    r.store = st ∧ r.writes = [] ∧ r.keygenCalls = [] ∧
    r.reads = [publicKeyPathOf env svc] ∧
    r.sends.map Prod.fst =
      [⟨"SUCCESS", "See CloudWatch Log Stream: " ++ ctx.logStreamName, prid, sid, rid, lid,
        RData.keys pm.value (publicKeyPathOf env svc) (privateKeyPathOf env svc)⟩] ∧
    r.result = Except.ok () := by
  rw [handler_unfold]
  cases rurl <;> cases hh : o.http <;>
    simp [wfEvent, handlerStep, send_response, exceptBlock, hget, hlook, hh]

/-- Witness for C3 at a concrete Update event with the public key present. -/
theorem claim3_update_found_witness :
    (handler (wfEvent "Update" "prod" "edge" "S" "R" "L" (some "U") (some "myid")) ⟨"ls"⟩
        [(publicKeyPathOf "prod" "edge", ⟨"STOREDPUB", "String", "d"⟩)]
        ⟨Except.ok "PRIV", Except.ok "PUB", none, none, none, []⟩).store =
      [(publicKeyPathOf "prod" "edge", ⟨"STOREDPUB", "String", "d"⟩)] ∧
    (handler (wfEvent "Update" "prod" "edge" "S" "R" "L" (some "U") (some "myid")) ⟨"ls"⟩
        [(publicKeyPathOf "prod" "edge", ⟨"STOREDPUB", "String", "d"⟩)]
        ⟨Except.ok "PRIV", Except.ok "PUB", none, none, none, []⟩).writes = [] ∧
    (handler (wfEvent "Update" "prod" "edge" "S" "R" "L" (some "U") (some "myid")) ⟨"ls"⟩
        [(publicKeyPathOf "prod" "edge", ⟨"STOREDPUB", "String", "d"⟩)]
        ⟨Except.ok "PRIV", Except.ok "PUB", none, none, none, []⟩).keygenCalls = [] ∧
    (handler (wfEvent "Update" "prod" "edge" "S" "R" "L" (some "U") (some "myid")) ⟨"ls"⟩
        [(publicKeyPathOf "prod" "edge", ⟨"STOREDPUB", "String", "d"⟩)]
        ⟨Except.ok "PRIV", Except.ok "PUB", none, none, none, []⟩).reads =
      [publicKeyPathOf "prod" "edge"] ∧
    (handler (wfEvent "Update" "prod" "edge" "S" "R" "L" (some "U") (some "myid")) ⟨"ls"⟩
        [(publicKeyPathOf "prod" "edge", ⟨"STOREDPUB", "String", "d"⟩)]
        ⟨Except.ok "PRIV", Except.ok "PUB", none, none, none, []⟩).sends.map Prod.fst =
      [⟨"SUCCESS", "See CloudWatch Log Stream: " ++ Context.logStreamName ⟨"ls"⟩, "myid",
        "S", "R", "L",
        RData.keys (Param.value ⟨"STOREDPUB", "String", "d"⟩) (publicKeyPathOf "prod" "edge")
          (privateKeyPathOf "prod" "edge")⟩] ∧
    (handler (wfEvent "Update" "prod" "edge" "S" "R" "L" (some "U") (some "myid")) ⟨"ls"⟩
        [(publicKeyPathOf "prod" "edge", ⟨"STOREDPUB", "String", "d"⟩)]
        ⟨Except.ok "PRIV", Except.ok "PUB", none, none, none, []⟩).result = Except.ok () :=
  claim3_update_found "prod" "edge" "S" "R" "L" "myid" (some "U") ⟨"ls"⟩
    [(publicKeyPathOf "prod" "edge", ⟨"STOREDPUB", "String", "d"⟩)]
    ⟨Except.ok "PRIV", Except.ok "PUB", none, none, none, []⟩
    ⟨"STOREDPUB", "String", "d"⟩ rfl rfl

/-- Claim C4 (confirmed): for every well-formed Update event whose store read
of the public-key path finds nothing, the handler re-runs the Create path on
the same event: it performs the same single key generation and the same two
store writes as a Create, and the callback carries the freshly computed
cf-keys-environment-service PhysicalResourceId instead of the caller-supplied
one. -/
theorem claim4_update_notfound_creates (env svc sid rid lid prid : String)
    (rurl : Option String) (ctx : Context) (st : Store) (o : Oracle) (priv pub : String)
    (hget : o.getPub = none)
    (hlook : Store.get st (publicKeyPathOf env svc) = none)
    (hg : o.genrsa = Except.ok priv) (hp : o.pubout = Except.ok pub)
    (h1 : o.putPriv = none) (h2 : o.putPub = none) :
    let r := handler (wfEvent "Update" env svc sid rid lid rurl (some prid)) ctx st o
    r.keygenCalls = [2048] ∧
    r.reads = [publicKeyPathOf env svc] ∧
    r.writes =
      [⟨privateKeyPathOf env svc, b64encode priv, "SecureString",
        "CloudFront private key for signing URLs (base64 encoded)", true⟩,
       ⟨publicKeyPathOf env svc, pub, "String",
        "CloudFront public key for signing URLs", true⟩] ∧
    r.sends.map Prod.fst =
      [⟨"SUCCESS", "See CloudWatch Log Stream: " ++ ctx.logStreamName,
        assignedId env svc, sid, rid, lid,
        RData.keys pub (publicKeyPathOf env svc) (privateKeyPathOf env svc)⟩] ∧
    r.result = Except.ok () := by
  rw [handler_unfold]
  cases rurl <;> cases hh : o.http <;>
    simp [wfEvent, handlerStep, setCreate, handlerFuel_succ, createPath, send_response,
      exceptBlock, hget, hlook, hg, hp, h1, h2, hh]

/-- Witness for C4 at a concrete Update event with an empty store. -/
theorem claim4_update_notfound_creates_witness :
    (handler (wfEvent "Update" "prod" "edge" "S" "R" "L" (some "U") (some "myid")) ⟨"ls"⟩ []
        ⟨Except.ok "PRIV", Except.ok "PUB", none, none, none, []⟩).keygenCalls = [2048] ∧
    (handler (wfEvent "Update" "prod" "edge" "S" "R" "L" (some "U") (some "myid")) ⟨"ls"⟩ []
        ⟨Except.ok "PRIV", Except.ok "PUB", none, none, none, []⟩).reads =
      [publicKeyPathOf "prod" "edge"] ∧
    (handler (wfEvent "Update" "prod" "edge" "S" "R" "L" (some "U") (some "myid")) ⟨"ls"⟩ []
        ⟨Except.ok "PRIV", Except.ok "PUB", none, none, none, []⟩).writes =
      [⟨privateKeyPathOf "prod" "edge", b64encode "PRIV", "SecureString",
        "CloudFront private key for signing URLs (base64 encoded)", true⟩,
       ⟨publicKeyPathOf "prod" "edge", "PUB", "String",
        "CloudFront public key for signing URLs", true⟩] ∧
    (handler (wfEvent "Update" "prod" "edge" "S" "R" "L" (some "U") (some "myid")) ⟨"ls"⟩ []
        ⟨Except.ok "PRIV", Except.ok "PUB", none, none, none, []⟩).sends.map Prod.fst =
      [⟨"SUCCESS", "See CloudWatch Log Stream: " ++ Context.logStreamName ⟨"ls"⟩,
        assignedId "prod" "edge", "S", "R", "L",
        RData.keys "PUB" (publicKeyPathOf "prod" "edge") (privateKeyPathOf "prod" "edge")⟩] ∧
    (handler (wfEvent "Update" "prod" "edge" "S" "R" "L" (some "U") (some "myid")) ⟨"ls"⟩ []
        ⟨Except.ok "PRIV", Except.ok "PUB", none, none, none, []⟩).result = Except.ok () :=
  claim4_update_notfound_creates "prod" "edge" "S" "R" "L" "myid" (some "U") ⟨"ls"⟩ []
    ⟨Except.ok "PRIV", Except.ok "PUB", none, none, none, []⟩ "PRIV" "PUB"
    rfl rfl rfl rfl rfl rfl

/-- Claim C5 counterexample: the Delete callback Data is the message
Keys retained in SSM, not the message Keys retained stated by the claim. -/
theorem claim5_message_mismatch :
    ((handler ⟨some "Delete", some ⟨some "prod", some "edge"⟩, some "S", some "R", some "L",
        some "U", some "X"⟩ ⟨"ls"⟩ []
        ⟨Except.ok "PRIV", Except.ok "PUB", none, none, none, []⟩).sends.map
          (fun pb => pb.1.data)) = [RData.message "Keys retained in SSM"] ∧
    RData.message "Keys retained in SSM" ≠ RData.message "Keys retained" :=
  ⟨rfl, by decide⟩

/-- Claim C5 (amended): for every well-formed Delete event the handler
performs no store operation at all — no write, no read, no deletion, the
store is unchanged — and sends a single SUCCESS callback with
Data = Message: Keys retained in SSM, whose PhysicalResourceId is the
caller-supplied one when present and the recomputed
cf-keys-environment-service id otherwise. -/
theorem claim5_delete_retains (env svc sid rid lid : String) (rurl prid0 : Option String)
    (ctx : Context) (st : Store) (o : Oracle) :
    let r := handler (wfEvent "Delete" env svc sid rid lid rurl prid0) ctx st o
    r.store = st ∧ r.writes = [] ∧ r.reads = [] ∧ r.keygenCalls = [] ∧
    r.sends.map Prod.fst =
      [⟨"SUCCESS", "See CloudWatch Log Stream: " ++ ctx.logStreamName,
        prid0.getD (assignedId env svc), sid, rid, lid,
        RData.message "Keys retained in SSM"⟩] ∧
    r.result = Except.ok () := by
  rw [handler_unfold]
  cases rurl <;> cases hh : o.http <;>
    simp [wfEvent, handlerStep, deletePath, send_response, exceptBlock, hh]

/-- Claim C6 counterexample: when the public-key store write fails after the
private-key write succeeded, exactly one write has occurred — the run ends in
a FAILED callback, but it is not the case that either both writes succeeded
or no write occurred. -/
theorem claim6_partial_write :
    (handler ⟨some "Create", some ⟨some "prod", some "edge"⟩, some "S", some "R", some "L",
        some "U", none⟩ ⟨"ls"⟩ []
        ⟨Except.ok "PRIV", Except.ok "PUB", none, some "AccessDeniedException", none,
          []⟩).writes.length = 1 ∧
    ((handler ⟨some "Create", some ⟨some "prod", some "edge"⟩, some "S", some "R", some "L",
        some "U", none⟩ ⟨"ls"⟩ []
        ⟨Except.ok "PRIV", Except.ok "PUB", none, some "AccessDeniedException", none,
          []⟩).sends.map (fun pb => pb.1.status)) = ["FAILED"] :=
  ⟨rfl, rfl⟩

/-- Claim C6 (amended): for every well-formed Create event on which key
generation or a store write fails, the handler sends a single FAILED callback
whose Data.Error is non-empty and whose PhysicalResourceId falls back to the
sentinel, and returns normally; the private-key write strictly precedes the
public-key write, so the write trace is either empty (generation or
private-key write failed) or exactly the private-key write (public-key write
failed) — a failure aborts before any further write, but a public-key write
failure does leave the already-written private key in place. -/
theorem claim6_create_failure_modes (env svc sid rid lid : String) (rurl prid0 : Option String)
    (ctx : Context) (st : Store) (o : Oracle)
    (hfail : o.genrsa.isOk = false ∨ o.pubout.isOk = false ∨
      o.putPriv ≠ none ∨ o.putPub ≠ none) :
    let r := handler (wfEvent "Create" env svc sid rid lid rurl prid0) ctx st o
    (∃ m, m ≠ "" ∧
      r.sends.map Prod.fst =
        [⟨"FAILED", "See CloudWatch Log Stream: " ++ ctx.logStreamName,
          prid0.getD "failed-resource", sid, rid, lid, RData.error m⟩]) ∧
    (r.writes = [] ∨
      ∃ v, r.writes =
        [⟨privateKeyPathOf env svc, v, "SecureString",
          "CloudFront private key for signing URLs (base64 encoded)", true⟩]) ∧
    r.result = Except.ok () := by
  rw [handler_unfold]
  cases hg : o.genrsa with
  | error rc =>
    cases rurl <;> cases hh : o.http <;>
      exact ⟨⟨_, errMsg_ne_empty (Exc.calledProcessError "openssl genrsa" rc), by
        simp [wfEvent, handlerStep, createPath, send_response, exceptBlock, hg, hh]⟩,
        by simp [wfEvent, handlerStep, createPath, send_response, exceptBlock, hg, hh],
        by simp [wfEvent, handlerStep, createPath, send_response, exceptBlock, hg, hh]⟩
  | ok priv =>
    cases hp : o.pubout with
    | error rc =>
      cases rurl <;> cases hh : o.http <;>
        exact ⟨⟨_, errMsg_ne_empty (Exc.calledProcessError "openssl rsa -pubout" rc), by
          simp [wfEvent, handlerStep, createPath, send_response, exceptBlock, hg, hp, hh]⟩,
          by simp [wfEvent, handlerStep, createPath, send_response, exceptBlock, hg, hp, hh],
          by simp [wfEvent, handlerStep, createPath, send_response, exceptBlock, hg, hp, hh]⟩
    | ok pub =>
      cases h1 : o.putPriv with
      | some code =>
        cases rurl <;> cases hh : o.http <;>
          exact ⟨⟨_, errMsg_ne_empty (Exc.clientError code "PutParameter"), by
            simp [wfEvent, handlerStep, createPath, send_response, exceptBlock,
              hg, hp, h1, hh]⟩,
            by simp [wfEvent, handlerStep, createPath, send_response, exceptBlock,
              hg, hp, h1, hh],
            by simp [wfEvent, handlerStep, createPath, send_response, exceptBlock,
              hg, hp, h1, hh]⟩
      | none =>
        cases h2 : o.putPub with
        | some code =>
          cases rurl <;> cases hh : o.http <;>
            exact ⟨⟨_, errMsg_ne_empty (Exc.clientError code "PutParameter"), by
              simp [wfEvent, handlerStep, createPath, send_response, exceptBlock,
                hg, hp, h1, h2, hh]⟩,
              Or.inr ⟨b64encode priv, by
                simp [wfEvent, handlerStep, createPath, send_response, exceptBlock,
                  hg, hp, h1, h2, hh]⟩,
              by simp [wfEvent, handlerStep, createPath, send_response, exceptBlock,
                hg, hp, h1, h2, hh]⟩
        | none =>
          exfalso
          rcases hfail with h | h | h | h <;>
            simp [hg, hp, h1, h2, Except.isOk, Except.toBool] at h

/-- Witness for C6 at a concrete Create event whose public-key write fails. -/
theorem claim6_create_failure_modes_witness :
    (∃ m, m ≠ "" ∧
      (handler (wfEvent "Create" "prod" "edge" "S" "R" "L" (some "U") none) ⟨"ls"⟩ []
          ⟨Except.ok "PRIV", Except.ok "PUB", none, some "AccessDeniedException", none,
            []⟩).sends.map Prod.fst =
        [⟨"FAILED", "See CloudWatch Log Stream: " ++ Context.logStreamName ⟨"ls"⟩,
          Option.getD none "failed-resource", "S", "R", "L", RData.error m⟩]) ∧
    ((handler (wfEvent "Create" "prod" "edge" "S" "R" "L" (some "U") none) ⟨"ls"⟩ []
          ⟨Except.ok "PRIV", Except.ok "PUB", none, some "AccessDeniedException", none,
            []⟩).writes = [] ∨
      ∃ v, (handler (wfEvent "Create" "prod" "edge" "S" "R" "L" (some "U") none) ⟨"ls"⟩ []
          ⟨Except.ok "PRIV", Except.ok "PUB", none, some "AccessDeniedException", none,
            []⟩).writes =
        [⟨privateKeyPathOf "prod" "edge", v, "SecureString",
          "CloudFront private key for signing URLs (base64 encoded)", true⟩]) ∧
    (handler (wfEvent "Create" "prod" "edge" "S" "R" "L" (some "U") none) ⟨"ls"⟩ []
        ⟨Except.ok "PRIV", Except.ok "PUB", none, some "AccessDeniedException", none,
          []⟩).result = Except.ok () :=
  claim6_create_failure_modes "prod" "edge" "S" "R" "L" (some "U") none ⟨"ls"⟩ []
    ⟨Except.ok "PRIV", Except.ok "PUB", none, some "AccessDeniedException", none, []⟩
    (Or.inr (Or.inr (Or.inr (by decide))))

/-- Claim C7 counterexample: after a Create for environment prod assigns the
id cf-keys-prod-edge, a subsequent Update for the same resource (carrying
that assigned id) whose ResourceProperties changed to environment stage finds
no public key at the new path and sends a callback carrying the different id
cf-keys-stage-edge, so the PhysicalResourceId is not echoed unchanged on
every subsequent callback. -/
theorem claim7_prid_change :
    ((handler ⟨some "Create", some ⟨some "prod", some "edge"⟩, some "S", some "R", some "L",
        some "U", none⟩ ⟨"ls"⟩ []
        ⟨Except.ok "PRIV", Except.ok "PUB", none, none, none, []⟩).sends.map
          (fun pb => pb.1.physicalResourceId)) = ["cf-keys-prod-edge"] ∧
    ((handler ⟨some "Update", some ⟨some "stage", some "edge"⟩, some "S2", some "R2",
        some "L2", some "U", some "cf-keys-prod-edge"⟩ ⟨"ls"⟩
        (handler ⟨some "Create", some ⟨some "prod", some "edge"⟩, some "S", some "R",
          some "L", some "U", none⟩ ⟨"ls"⟩ []
          ⟨Except.ok "PRIV", Except.ok "PUB", none, none, none, []⟩).store
        ⟨Except.ok "PRIV2", Except.ok "PUB2", none, none, none, []⟩).sends.map
          (fun pb => pb.1.physicalResourceId)) = ["cf-keys-stage-edge"] ∧
    ("cf-keys-stage-edge" : String) ≠ "cf-keys-prod-edge" :=
  ⟨rfl, rfl, by decide⟩

/-- Claim C7 (amended): the PhysicalResourceId is stable provided the
Environment and Service properties stay those under which it was assigned:
for every well-formed event that carries the assigned id
cf-keys-environment-service and the same Environment and Service, every
callback the handler sends — on Create, Update (found or not found), Delete,
and FAILED callbacks alike — carries that same id unchanged.  If the
properties change on an Update whose public key is absent, the callback
instead carries the newly computed id (see the counterexample). -/
theorem claim7_prid_stable (rt env svc sid rid lid : String) (rurl : Option String)
    (ctx : Context) (st : Store) (o : Oracle) :
    ∀ pb ∈ (handler (wfEvent rt env svc sid rid lid rurl
        (some (assignedId env svc))) ctx st o).sends,
      pb.1.physicalResourceId = assignedId env svc := by
  obtain ⟨-, hgood⟩ := handler_wf rt env svc sid rid lid rurl (some (assignedId env svc))
    ctx st o
  simp only [goodSends, goodPayload] at hgood
  intro pb hmem
  obtain ⟨-, -, -, hstat, himp⟩ := hgood.2 pb hmem
  rcases hstat with hs | ⟨-, -, hprid⟩
  · rcases himp hs with h | h | h
    · exact h
    · simpa using h
    · simpa using h.symm
  · simpa using hprid

/-- Witness for C7: the concrete payload sent on an Update that carries the
assigned id (public key present in the store) echoes exactly that id. -/
theorem claim7_prid_stable_witness :
    (⟨"SUCCESS", "See CloudWatch Log Stream: ls", "cf-keys-prod-edge", "S", "R", "L",
        RData.keys "PUB" (publicKeyPathOf "prod" "edge") (privateKeyPathOf "prod" "edge")⟩ :
      Payload).physicalResourceId = assignedId "prod" "edge" :=
  claim7_prid_stable "Update" "prod" "edge" "S" "R" "L" (some "U") ⟨"ls"⟩
    [(publicKeyPathOf "prod" "edge", ⟨"PUB", "String", "d"⟩)]
    ⟨Except.ok "PRIV", Except.ok "PUB", none, none, none, []⟩
    (⟨"SUCCESS", "See CloudWatch Log Stream: ls", "cf-keys-prod-edge", "S", "R", "L",
        RData.keys "PUB" (publicKeyPathOf "prod" "edge") (privateKeyPathOf "prod" "edge")⟩,
      true)
    (by decide)

/-- Claim C8 (confirmed): the callback transport is best-effort — for every
event, state and oracle, changing only the transport behaviour changes
nothing in the transport-independent outcome: the final store, the write
trace, the read trace, the key-generation trace, the payloads of every
callback sent, and whether the handler returns normally or raises are all
identical; in particular a delivery failure never raises out of the handler
and never alters any other behaviour. -/
theorem claim8_transport_irrelevant (ev : Event) (ctx : Context) (st : Store) (o : Oracle)
    (hA hB : List Bool) :
    (handler ev ctx st { o with http := hA }).core =
    (handler ev ctx st { o with http := hB }).core :=
  handlerFuel_core 1000 ev ctx st { o with http := hA } { o with http := hB }
    rfl rfl rfl rfl rfl

/-- Claim C9 (confirmed): for every event whose required fields are present
but whose RequestType is none of Create, Update or Delete, the handler
performs no store operation, no key generation, sends no callback at all,
and returns normally with no observable effect. -/
theorem claim9_unknown_request_type (rt env svc sid rid lid : String)
    (rurl prid0 : Option String) (ctx : Context) (st : Store) (o : Oracle)
    (h1 : rt ≠ "Create") (h2 : rt ≠ "Update") (h3 : rt ≠ "Delete") :
    handler (wfEvent rt env svc sid rid lid rurl prid0) ctx st o =
      { store := st, writes := [], reads := [], keygenCalls := [], sends := [],
        httpRest := o.http, result := Except.ok () } := by
  rw [handler_unfold]
  simp [wfEvent, handlerStep, exceptBlock, noEffect, h1, h2, h3]

/-- Witness for C9 at a concrete event with RequestType Read. -/
theorem claim9_unknown_request_type_witness :
    handler (wfEvent "Read" "prod" "edge" "S" "R" "L" (some "U") none) ⟨"ls"⟩ []
        ⟨Except.ok "PRIV", Except.ok "PUB", none, none, none, []⟩ =
      { store := [], writes := [], reads := [], keygenCalls := [], sends := [],
        httpRest := [], result := Except.ok () } :=
  claim9_unknown_request_type "Read" "prod" "edge" "S" "R" "L" (some "U") none ⟨"ls"⟩ []
    ⟨Except.ok "PRIV", Except.ok "PUB", none, none, none, []⟩
    (by decide) (by decide) (by decide)

/-- Claim C10 (confirmed): on an Update whose public key is absent, the
handler overwrites RequestType with Create in place and re-invokes itself on
the mutated event, whose outcome it returns (plus the already-recorded read);
the mutated event has RequestType Create, so it can never satisfy the
fallback condition again; and every recursion budget of at least two yields
the very outcome of the handler, so the recursion depth is at most one. -/
theorem claim10_fallback_once (env svc sid rid lid : String) (rurl prid0 : Option String)
    (ctx : Context) (st : Store) (o : Oracle)
    (hget : o.getPub = none)
    (hlook : Store.get st (publicKeyPathOf env svc) = none) :
    handler (wfEvent "Update" env svc sid rid lid rurl prid0) ctx st o =
      { handler (wfEvent "Create" env svc sid rid lid rurl prid0) ctx st o with
        reads := publicKeyPathOf env svc ::
          (handler (wfEvent "Create" env svc sid rid lid rurl prid0) ctx st o).reads } ∧
    setCreate (wfEvent "Update" env svc sid rid lid rurl prid0) =
      wfEvent "Create" env svc sid rid lid rurl prid0 ∧
    (∀ (st2 : Store) (o2 : Oracle),
      fallbackOccurs (wfEvent "Create" env svc sid rid lid rurl prid0) st2 o2 = false) ∧
    (∀ n, handlerFuel (n + 2) (wfEvent "Update" env svc sid rid lid rurl prid0) ctx st o =
      handler (wfEvent "Update" env svc sid rid lid rurl prid0) ctx st o) := by
  have hirr := step_recur_irrel (handlerFuel 998) (handlerFuel 999)
    (wfEvent "Create" env svc sid rid lid rurl prid0) ctx st o (by simp [wfEvent])
  have hcein : handlerFuel 999 (wfEvent "Create" env svc sid rid lid rurl prid0) ctx st o =
      handler (wfEvent "Create" env svc sid rid lid rurl prid0) ctx st o := by
    have a : handlerFuel 999 (wfEvent "Create" env svc sid rid lid rurl prid0) ctx st o =
        handlerStep (handlerFuel 998)
          (wfEvent "Create" env svc sid rid lid rurl prid0) ctx st o := rfl
    have b : handler (wfEvent "Create" env svc sid rid lid rurl prid0) ctx st o =
        handlerStep (handlerFuel 999)
          (wfEvent "Create" env svc sid rid lid rurl prid0) ctx st o := rfl
    rw [a, b]
    exact hirr
  have hres : (handler (wfEvent "Create" env svc sid rid lid rurl prid0) ctx st o).result =
      Except.ok () :=
    (handler_wf "Create" env svc sid rid lid rurl prid0 ctx st o).1
  refine ⟨?_, rfl, ?_, ?_⟩
  · rw [handler_unfold]
    simp only [handlerStep, wfEvent, setCreate, hget, hlook]
    simp only [wfEvent] at hcein
    rw [hcein]
    simp only [wfEvent] at hres
    simp [exceptBlock, hres]
  · intro st2 o2
    simp [fallbackOccurs, wfEvent]
  · intro n
    have c : handler (wfEvent "Update" env svc sid rid lid rurl prid0) ctx st o =
        handlerFuel (998 + 2) (wfEvent "Update" env svc sid rid lid rurl prid0) ctx st o :=
      rfl
    rw [c]
    exact handlerFuel_stable n 998 _ ctx st o

/-- Witness for C10 at a concrete Update event over an empty store. -/
theorem claim10_fallback_once_witness :
    handler (wfEvent "Update" "prod" "edge" "S" "R" "L" (some "U") (some "old")) ⟨"ls"⟩ []
        ⟨Except.ok "PRIV", Except.ok "PUB", none, none, none, []⟩ =
      { handler (wfEvent "Create" "prod" "edge" "S" "R" "L" (some "U") (some "old")) ⟨"ls"⟩
          [] ⟨Except.ok "PRIV", Except.ok "PUB", none, none, none, []⟩ with
        reads := publicKeyPathOf "prod" "edge" ::
          (handler (wfEvent "Create" "prod" "edge" "S" "R" "L" (some "U") (some "old")) ⟨"ls"⟩
            [] ⟨Except.ok "PRIV", Except.ok "PUB", none, none, none, []⟩).reads } :=
  (claim10_fallback_once "prod" "edge" "S" "R" "L" (some "U") (some "old") ⟨"ls"⟩ []
    ⟨Except.ok "PRIV", Except.ok "PUB", none, none, none, []⟩ rfl rfl).1

end CloudfrontKeygen
